import Mathlib

/-!
Shallow embedding of the `geniusrise_prompt_actions` wrapper functions.

Each Python wrapper builds a URL, headers and payload, issues one HTTP call
through the `requests` library, and returns either parsed JSON or a string.
We model parsed JSON values, HTTP requests, and the transport layer as a
function from requests to outcomes; each wrapper becomes a Lean function of
its original arguments plus that transport function, returning the list of
requests it issued together with its Python-level result (a value, or an
uncaught exception).
-/

/-- Parsed JSON values, as Python objects produced by `response.json()` and
serialized by the `json=` keyword of `requests`. Object fields keep their
insertion order, as Python dicts do. -/
inductive Json where
  | null : Json
  | bool : Bool → Json
  | num : Int → Json
  | str : String → Json
  | arr : List Json → Json
  | obj : List (String × Json) → Json
deriving Repr

/-- HTTP methods used by the wrappers. -/
inductive Method where
  | GET : Method
  | POST : Method
  | PUT : Method
  | PATCH : Method
  | DELETE : Method
deriving Repr

/-- One HTTP request as handed to `requests.<method>`: the URL, the header
dict, the `json=` payload if any, the `auth=` basic-auth pair if any, the
`data=` form fields, and the `files=` entries (field name and file
contents). -/
structure Request where
  method : Method
  url : String
  headers : List (String × String)
  body : Option Json
  auth : Option (String × String)
  formData : List (String × String)
  files : List (String × String)
deriving Repr

/-- The HTTP response the transport layer hands back: status code and parsed
body. -/
structure HttpResponse where
  status : Nat
  body : Json
deriving Repr

/-- The transport layer: for a request, either a response, or a raised
`requests.RequestException` whose `str(e)` is the given string. -/
def Http : Type := Request → Except String HttpResponse

/-- Python exceptions that can escape a wrapper to its caller. -/
inductive PyExc where
  | requestException : String → PyExc
  | osError : String → PyExc
  | keyError : String → PyExc
  | nameError : String → PyExc
deriving Repr

/-- What one invocation of a wrapper did: the requests it issued, in order,
and its outcome — a returned Python value (`Except.ok`) or an uncaught
exception (`Except.error`). -/
structure CallResult where
  trace : List Request
  result : Except PyExc Json
deriving Repr

/-- Statuses on which `response.raise_for_status()` raises `HTTPError`:
the 4xx and 5xx ranges. -/
def isErrorStatus (status : Nat) : Bool :=
  400 ≤ status && status < 600

/-- Model of `str(e)` for the `HTTPError` that `raise_for_status` raises:
a human-readable message naming the status and the URL. -/
def httpErrorString (status : Nat) (url : String) : String :=
  toString status ++ " Error for url: " ++ url

/-- The shared body of most wrappers:
`try: response = requests.<m>(...); response.raise_for_status(); return <onOk response>`
`except requests.RequestException as e: return str(e)`.
A transport exception or an error status is converted to a string; otherwise
the success continuation (usually `response.json()`) gives the return
value. -/
def tryRequest (http : Http) (req : Request) (onOk : HttpResponse → Json) : CallResult :=
  ⟨[req],
    Except.ok (match http req with
      | Except.error e => Json.str e
      | Except.ok resp =>
        if isErrorStatus resp.status then Json.str (httpErrorString resp.status req.url)
        else onOk resp)⟩

/-- The body of the three GitHub repo functions that have no `try`/`except`
and no `raise_for_status`: `response = requests.<m>(...); return response.json()`.
A transport exception propagates to the caller; any response body is returned
whatever the status. -/
def rawRequestJson (http : Http) (req : Request) : CallResult :=
  ⟨[req],
    match http req with
    | Except.error e => Except.error (PyExc.requestException e)
    | Except.ok resp => Except.ok resp.body⟩

/-- Python dict lookup `d[k]` on a string-valued dict, `none` when the key is
absent (where Python raises `KeyError`). -/
def dictGet (d : List (String × String)) (k : String) : Option String :=
  (d.find? (fun kv => kv.1 == k)).map (fun kv => kv.2)

namespace Confluence

/-- Request built by `create_page` (actions/confluence/pages.py): POST
`{base_url}/rest/api/content` with a Content-Type header, the page payload,
and basic auth. -/
def create_page_request (base_url : String) (auth : String × String)
    (space_key : String) (title : String) (content : String) : Request :=
  ⟨Method.POST, base_url ++ "/rest/api/content",
    [("Content-Type", "application/json")],
    some (Json.obj [
      ("type", Json.str "page"),
      ("title", Json.str title),
      ("space", Json.obj [("key", Json.str space_key)]),
      ("body", Json.obj [("storage", Json.obj [
        ("value", Json.str content),
        ("representation", Json.str "storage")])])]),
    some auth, [], []⟩

/-- Wrapper `create_page`: issues the POST and returns `response.json()` on success. -/
def create_page (base_url : String) (auth : String × String) (space_key : String)
    (title : String) (content : String) (http : Http) : CallResult :=
  tryRequest http (create_page_request base_url auth space_key title content)
    (fun resp => resp.body)

/-- Request built by `read_page`: GET `{base_url}/rest/api/content/{page_id}`
with basic auth and no headers or payload. -/
def read_page_request (base_url : String) (auth : String × String)
    (page_id : String) : Request :=
  ⟨Method.GET, base_url ++ "/rest/api/content/" ++ page_id, [], none, some auth, [], []⟩

/-- Wrapper `read_page`: issues the GET and returns `response.json()` on success. -/
def read_page (base_url : String) (auth : String × String) (page_id : String)
    (http : Http) : CallResult :=
  tryRequest http (read_page_request base_url auth page_id) (fun resp => resp.body)

/-- Request built by `update_page`: PUT `{base_url}/rest/api/content/{page_id}`
whose payload carries `version.number = version + 1`, the caller's version
incremented by one. -/
def update_page_request (base_url : String) (auth : String × String) (page_id : String)
    (version : Int) (title : String) (content : String) : Request :=
  ⟨Method.PUT, base_url ++ "/rest/api/content/" ++ page_id,
    [("Content-Type", "application/json")],
    some (Json.obj [
      ("version", Json.obj [("number", Json.num (version + 1))]),
      ("title", Json.str title),
      ("type", Json.str "page"),
      ("body", Json.obj [("storage", Json.obj [
        ("value", Json.str content),
        ("representation", Json.str "storage")])])]),
    some auth, [], []⟩

/-- Wrapper `update_page`: issues the PUT and returns `response.json()` on success. -/
def update_page (base_url : String) (auth : String × String) (page_id : String)
    (version : Int) (title : String) (content : String) (http : Http) : CallResult :=
  tryRequest http (update_page_request base_url auth page_id version title content)
    (fun resp => resp.body)

/-- Request built by `delete_page`: DELETE `{base_url}/rest/api/content/{page_id}`
with basic auth. -/
def delete_page_request (base_url : String) (auth : String × String)
    (page_id : String) : Request :=
  ⟨Method.DELETE, base_url ++ "/rest/api/content/" ++ page_id, [], none, some auth, [], []⟩

/-- Wrapper `delete_page`: issues the DELETE and on success discards the body,
returning the fixed dict `{"status": "Page deleted successfully"}`. -/
def delete_page (base_url : String) (auth : String × String) (page_id : String)
    (http : Http) : CallResult :=
  tryRequest http (delete_page_request base_url auth page_id)
    (fun _ => Json.obj [("status", Json.str "Page deleted successfully")])

end Confluence

/-- Serialization of an optional Python value under `json=`: `None` becomes
JSON `null`, a present value is serialized by `f`. -/
def optJson (f : α → Json) : Option α → Json
  | none => Json.null
  | some a => f a

namespace GitHub

/-- Request built by `create_repository` (actions/github/repo.py): POST to
`https://api.github.com/orgs/{organization}/repos` when `organization` is
truthy (non-`None` and non-empty), else `https://api.github.com/user/repos`,
with a token Authorization header and the name/description/private payload. -/
def create_repository_request (auth_token : String) (name : String)
    (description : Option String) (priv : Bool) (organization : Option String) : Request :=
  ⟨Method.POST,
    "https://api.github.com/" ++
      (match organization with
       | some org => if org == "" then "user" else "orgs/" ++ org
       | none => "user") ++ "/repos",
    [("Authorization", "token " ++ auth_token)],
    some (Json.obj [
      ("name", Json.str name),
      ("description", optJson Json.str description),
      ("private", Json.bool priv)]),
    none, [], []⟩

/-- Wrapper `create_repository`: no `try`/`except` and no `raise_for_status`; returns
`response.json()` whatever the status, propagates transport exceptions. -/
def create_repository (auth_token : String) (name : String) (description : Option String)
    (priv : Bool) (organization : Option String) (http : Http) : CallResult :=
  rawRequestJson http (create_repository_request auth_token name description priv organization)

/-- Request built by `delete_repository`: DELETE
`https://api.github.com/repos/{owner}/{repo}` with a token header. -/
def delete_repository_request (auth_token : String) (owner : String) (repo : String) : Request :=
  ⟨Method.DELETE, "https://api.github.com/repos/" ++ owner ++ "/" ++ repo,
    [("Authorization", "token " ++ auth_token)], none, none, [], []⟩

/-- Wrapper `delete_repository`: no `try`/`except` and no `raise_for_status`; returns
`response.json()` whatever the status, propagates transport exceptions. -/
def delete_repository (auth_token : String) (owner : String) (repo : String)
    (http : Http) : CallResult :=
  rawRequestJson http (delete_repository_request auth_token owner repo)

/-- Payload built by `update_repository`: the dict of the three optional
fields with the `None`-valued entries removed
(`{k: v for k, v in payload.items() if v is not None}`). -/
def update_repository_payload (name : Option String) (description : Option String)
    (priv : Option Bool) : Json :=
  Json.obj (List.filterMap (fun kv => Option.map (fun v => (kv.1, v)) kv.2)
    [("name", Option.map Json.str name),
     ("description", Option.map Json.str description),
     ("private", Option.map Json.bool priv)])

/-- Request built by `update_repository`: PATCH
`https://api.github.com/repos/{owner}/{repo}` with the filtered payload. -/
def update_repository_request (auth_token : String) (owner : String) (repo : String)
    (name : Option String) (description : Option String) (priv : Option Bool) : Request :=
  ⟨Method.PATCH, "https://api.github.com/repos/" ++ owner ++ "/" ++ repo,
    [("Authorization", "token " ++ auth_token)],
    some (update_repository_payload name description priv), none, [], []⟩

/-- Wrapper `update_repository`: no `try`/`except` and no `raise_for_status`; returns
`response.json()` whatever the status, propagates transport exceptions. -/
def update_repository (auth_token : String) (owner : String) (repo : String)
    (name : Option String) (description : Option String) (priv : Option Bool)
    (http : Http) : CallResult :=
  rawRequestJson http (update_repository_request auth_token owner repo name description priv)

/-- Request built by `star_repository`: PUT
`https://api.github.com/user/starred/{owner}/{repo}` with a token header. -/
def star_repository_request (auth_token : String) (owner : String) (repo : String) : Request :=
  ⟨Method.PUT, "https://api.github.com/user/starred/" ++ owner ++ "/" ++ repo,
    [("Authorization", "token " ++ auth_token)], none, none, [], []⟩

/-- Wrapper `star_repository`: standard `try`/`except` shape, but on success it
returns the fixed string "Successfully starred the repository.", not JSON. -/
def star_repository (auth_token : String) (owner : String) (repo : String)
    (http : Http) : CallResult :=
  tryRequest http (star_repository_request auth_token owner repo)
    (fun _ => Json.str "Successfully starred the repository.")

/-- Request built by `follow_user` (actions/github/user.py): PUT
`https://api.github.com/user/following/{username}` with a token header. -/
def follow_user_request (auth_token : String) (username : String) : Request :=
  ⟨Method.PUT, "https://api.github.com/user/following/" ++ username,
    [("Authorization", "token " ++ auth_token)], none, none, [], []⟩

/-- Wrapper `follow_user`: standard `try`/`except` shape, but on success it returns
the fixed string "User followed successfully.". -/
def follow_user (auth_token : String) (username : String) (http : Http) : CallResult :=
  tryRequest http (follow_user_request auth_token username)
    (fun _ => Json.str "User followed successfully.")

/-- Request built by `create_issue` (actions/github/pr.py): POST
`https://api.github.com/repos/{owner}/{repo}/issues` carrying all five body
fields, with `None` arguments serialized as JSON `null`. -/
def create_issue_request (auth_token : String) (owner : String) (repo : String)
    (title : String) (body : Option String) (labels : Option (List String))
    (assignees : Option (List String)) (milestone : Option Int) : Request :=
  ⟨Method.POST, "https://api.github.com/repos/" ++ owner ++ "/" ++ repo ++ "/issues",
    [("Authorization", "token " ++ auth_token)],
    some (Json.obj [
      ("title", Json.str title),
      ("body", optJson Json.str body),
      ("labels", optJson (fun ls => Json.arr (ls.map Json.str)) labels),
      ("assignees", optJson (fun ls => Json.arr (ls.map Json.str)) assignees),
      ("milestone", optJson Json.num milestone)]),
    none, [], []⟩

/-- Wrapper `create_issue`: issues the POST and returns `response.json()` on success. -/
def create_issue (auth_token : String) (owner : String) (repo : String)
    (title : String) (body : Option String) (labels : Option (List String))
    (assignees : Option (List String)) (milestone : Option Int) (http : Http) : CallResult :=
  tryRequest http (create_issue_request auth_token owner repo title body labels assignees milestone)
    (fun resp => resp.body)

end GitHub

namespace Discord

/-- Request built by `send_message` (actions/discord/messages.py): POST
`https://discord.com/api/v9/channels/{channel_id}/messages` with Bot
authorization and content payload. -/
def send_message_request (token : String) (channel_id : String) (content : String) : Request :=
  ⟨Method.POST, "https://discord.com/api/v9/channels/" ++ channel_id ++ "/messages",
    [("Authorization", "Bot " ++ token), ("Content-Type", "application/json")],
    some (Json.obj [("content", Json.str content)]), none, [], []⟩

/-- Wrapper `send_message`: issues the POST and returns `response.json()` on success. -/
def send_message (token : String) (channel_id : String) (content : String)
    (http : Http) : CallResult :=
  tryRequest http (send_message_request token channel_id content) (fun resp => resp.body)

/-- Request built by `delete_message`: DELETE
`https://discord.com/api/v9/channels/{channel_id}/messages/{message_id}`. -/
def delete_message_request (token : String) (channel_id : String) (message_id : String) : Request :=
  ⟨Method.DELETE,
    "https://discord.com/api/v9/channels/" ++ channel_id ++ "/messages/" ++ message_id,
    [("Authorization", "Bot " ++ token)], none, none, [], []⟩

/-- Wrapper `delete_message`: issues the DELETE and on success discards the body,
returning the fixed dict `{"status": "Message deleted successfully"}`. -/
def delete_message (token : String) (channel_id : String) (message_id : String)
    (http : Http) : CallResult :=
  tryRequest http (delete_message_request token channel_id message_id)
    (fun _ => Json.obj [("status", Json.str "Message deleted successfully")])

end Discord

namespace Jira

/-- Request built by `create_issue` (actions/jira/issues.py) once the auth
dict lookups succeed: POST `{server_url}/rest/api/2/issue` with the fields
payload and basic auth `(auth["username"], auth["password"])`. -/
def create_issue_request (server_url : String) (username : String) (password : String)
    (project_key : String) (issue_type : String) (summary : String)
    (description : String) : Request :=
  ⟨Method.POST, server_url ++ "/rest/api/2/issue",
    [("Content-Type", "application/json")],
    some (Json.obj [("fields", Json.obj [
      ("project", Json.obj [("key", Json.str project_key)]),
      ("issuetype", Json.obj [("name", Json.str issue_type)]),
      ("summary", Json.str summary),
      ("description", Json.str description)])]),
    some (username, password), [], []⟩

/-- Wrapper `create_issue` (Jira): evaluates `auth["username"]` then `auth["password"]` while
building the call; a missing key raises `KeyError`, which the
`except requests.RequestException` clause does not catch, so it propagates
before any request is issued. Otherwise the standard shape applies. -/
def create_issue (server_url : String) (auth : List (String × String))
    (project_key : String) (issue_type : String) (summary : String)
    (description : String) (http : Http) : CallResult :=
  match dictGet auth "username" with
  | none => ⟨[], Except.error (PyExc.keyError "username")⟩
  | some username =>
    match dictGet auth "password" with
    | none => ⟨[], Except.error (PyExc.keyError "password")⟩
    | some password =>
      tryRequest http
        (create_issue_request server_url username password project_key issue_type summary description)
        (fun resp => resp.body)

/-- Request built by `read_issue` once the auth dict lookups succeed: GET
`{server_url}/rest/api/2/issue/{issue_key}` with basic auth. -/
def read_issue_request (server_url : String) (username : String) (password : String)
    (issue_key : String) : Request :=
  ⟨Method.GET, server_url ++ "/rest/api/2/issue/" ++ issue_key,
    [("Content-Type", "application/json")], none, some (username, password), [], []⟩

/-- Wrapper `read_issue`: same auth-dict behaviour as `create_issue`, then the
standard shape returning `response.json()` on success. -/
def read_issue (server_url : String) (auth : List (String × String)) (issue_key : String)
    (http : Http) : CallResult :=
  match dictGet auth "username" with
  | none => ⟨[], Except.error (PyExc.keyError "username")⟩
  | some username =>
    match dictGet auth "password" with
    | none => ⟨[], Except.error (PyExc.keyError "password")⟩
    | some password =>
      tryRequest http (read_issue_request server_url username password issue_key)
        (fun resp => resp.body)

end Jira

namespace Slack

/-- Request built by `update_message` (actions/slack/messages.py): POST
`https://slack.com/api/chat.update` with Bearer authorization and the
channel/ts/text payload. -/
def update_message_request (token : String) (channel_id : String) (ts : String)
    (text : String) : Request :=
  ⟨Method.POST, "https://slack.com/api/chat.update",
    [("Authorization", "Bearer " ++ token)],
    some (Json.obj [
      ("channel", Json.str channel_id),
      ("ts", Json.str ts),
      ("text", Json.str text)]),
    none, [], []⟩

/-- Wrapper `update_message`: issues the POST and returns `response.json()` on
success. -/
def update_message (token : String) (channel_id : String) (ts : String) (text : String)
    (http : Http) : CallResult :=
  tryRequest http (update_message_request token channel_id ts text) (fun resp => resp.body)

/-- Request built by `upload_file` (actions/slack/files.py) once the file is
open: POST `https://slack.com/api/files.upload` with Bearer authorization,
the channels form field (`data=`), and the file entry (`files=`). -/
def upload_file_request (token : String) (channels : String) (contents : String) : Request :=
  ⟨Method.POST, "https://slack.com/api/files.upload",
    [("Authorization", "Bearer " ++ token)], none, none,
    [("channels", channels)], [("file", contents)]⟩

/-- Wrapper `upload_file`: evaluates `open(file_path, "rb")` before the `try` block,
so a missing file raises an uncaught `OSError` and no request is issued.
The filesystem is modelled as a partial map from paths to contents. -/
def upload_file (token : String) (channels : String) (file_path : String)
    (fs : String → Option String) (http : Http) : CallResult :=
  match fs file_path with
  | none => ⟨[], Except.error (PyExc.osError file_path)⟩
  | some contents =>
    tryRequest http (upload_file_request token channels contents) (fun resp => resp.body)

end Slack

namespace GitLab

/-- URL built by `manage_merge_request_notes` (actions/gitlab/mr.py). -/
def manage_merge_request_notes_url (server_url : String) (project_id : Int)
    (merge_request_id : Int) (note_id : Int) : String :=
  server_url ++ "/api/v4/projects/" ++ toString project_id ++ "/merge_requests/" ++
    toString merge_request_id ++ "/notes/" ++ toString note_id

/-- Wrapper `manage_merge_request_notes`: dispatches on `action` to exactly one of
POST/PUT/DELETE, each the standard shape returning a fixed success string;
an unrecognized action leaves `response` unassigned, so
`response.raise_for_status()` raises an uncaught `NameError` with no request
issued. -/
def manage_merge_request_notes (server_url : String) (auth_token : String)
    (project_id : Int) (merge_request_id : Int) (note_id : Int) (action : String)
    (body : String) (http : Http) : CallResult :=
  let url := manage_merge_request_notes_url server_url project_id merge_request_id note_id
  let headers := [("Authorization", "Bearer " ++ auth_token)]
  let payload := Json.obj [("body", Json.str body)]
  if action == "add" then
    tryRequest http ⟨Method.POST, url, headers, some payload, none, [], []⟩
      (fun _ => Json.str "Merge request note managed successfully.")
  else if action == "update" then
    tryRequest http ⟨Method.PUT, url, headers, some payload, none, [], []⟩
      (fun _ => Json.str "Merge request note managed successfully.")
  else if action == "delete" then
    tryRequest http ⟨Method.DELETE, url, headers, none, none, [], []⟩
      (fun _ => Json.str "Merge request note managed successfully.")
  else
    ⟨[], Except.error (PyExc.nameError "response")⟩

end GitLab

/-- A transport layer fails at a request when it raises a
`requests.RequestException`, or returns a response whose status is in the
4xx/5xx range (on which `raise_for_status` raises). -/
def failureAt (http : Http) (req : Request) : Prop :=
  (∃ e, http req = Except.error e) ∨
  (∃ resp, http req = Except.ok resp ∧ isErrorStatus resp.status = true)

/-- Concrete transport layer used as a witness input: DELETE requests get a
404 response with a JSON error body, everything else raises. -/
def mixedHttp : Http :=
  fun req =>
    match req.method with
    | Method.DELETE => Except.ok ⟨404, Json.obj [("message", Json.str "Not Found")]⟩
    | _ => Except.error "boom"

theorem tryRequest_failure_string (http : Http) (req : Request) (onOk : HttpResponse → Json)
    (h : failureAt http req) :
    ∃ s, (tryRequest http req onOk).result = Except.ok (Json.str s) := by
  rcases h with ⟨e, he⟩ | ⟨resp, hr, hs⟩
  · exact ⟨e, by simp [tryRequest, he]⟩
  · exact ⟨httpErrorString resp.status req.url, by simp [tryRequest, hr, hs]⟩

theorem tryRequest_success (http : Http) (req : Request) (onOk : HttpResponse → Json)
    (resp : HttpResponse) (hr : http req = Except.ok resp)
    (hs : isErrorStatus resp.status = false) :
    (tryRequest http req onOk).result = Except.ok (onOk resp) := by
  simp [tryRequest, hr, hs]

theorem tryRequest_never_raises (http : Http) (req : Request) (onOk : HttpResponse → Json) :
    ∃ v, (tryRequest http req onOk).result = Except.ok v := by
  unfold tryRequest
  exact ⟨_, rfl⟩

/-- C4: for every base_url, auth, space_key, title and content, Confluence
`create_page` issues exactly one POST to `base_url ++ "/rest/api/content"`
with the Content-Type: application/json header, the JSON body
`{type: "page", title, space: {key}, body: {storage: {value, representation: "storage"}}}`,
and the given basic-auth credential. -/
theorem create_page_issues_exact_request (base_url : String) (auth : String × String)
    (space_key : String) (title : String) (content : String) (http : Http) :
    (Confluence.create_page base_url auth space_key title content http).trace =
      [⟨Method.POST, base_url ++ "/rest/api/content",
        [("Content-Type", "application/json")],
        some (Json.obj [
          ("type", Json.str "page"),
          ("title", Json.str title),
          ("space", Json.obj [("key", Json.str space_key)]),
          ("body", Json.obj [("storage", Json.obj [
            ("value", Json.str content),
            ("representation", Json.str "storage")])])]),
        some auth, [], []⟩] :=
  rfl

/-- C8: Confluence `update_page` does not send the version it is given: the
single PUT request it issues carries `version.number = version + 1`, one more
than the caller-supplied value. -/
theorem update_page_sends_version_plus_one (base_url : String) (auth : String × String)
    (page_id : String) (version : Int) (title : String) (content : String) (http : Http) :
    (Confluence.update_page base_url auth page_id version title content http).trace =
      [⟨Method.PUT, base_url ++ "/rest/api/content/" ++ page_id,
        [("Content-Type", "application/json")],
        some (Json.obj [
          ("version", Json.obj [("number", Json.num (version + 1))]),
          ("title", Json.str title),
          ("type", Json.str "page"),
          ("body", Json.obj [("storage", Json.obj [
            ("value", Json.str content),
            ("representation", Json.str "storage")])])]),
        some auth, [], []⟩] :=
  rfl

/-- C5: on any successful (non-4xx/5xx) response, Confluence `delete_page`
returns the fixed dict `{"status": "Page deleted successfully"}` and Discord
`delete_message` returns `{"status": "Message deleted successfully"}`,
whatever body the server sent back. -/
theorem delete_endpoints_return_fixed_success_object
    (base_url : String) (auth : String × String) (page_id : String)
    (token : String) (channel_id : String) (message_id : String) (http : Http)
    (resp₁ resp₂ : HttpResponse)
    (h₁ : http (Confluence.delete_page_request base_url auth page_id) = Except.ok resp₁)
    (hs₁ : isErrorStatus resp₁.status = false)
    (h₂ : http (Discord.delete_message_request token channel_id message_id) = Except.ok resp₂)
    (hs₂ : isErrorStatus resp₂.status = false) :
    (Confluence.delete_page base_url auth page_id http).result =
      Except.ok (Json.obj [("status", Json.str "Page deleted successfully")]) ∧
    (Discord.delete_message token channel_id message_id http).result =
      Except.ok (Json.obj [("status", Json.str "Message deleted successfully")]) := by
  constructor
  · exact tryRequest_success http _ _ resp₁ h₁ hs₁
  · exact tryRequest_success http _ _ resp₂ h₂ hs₂

/-- Witness for C5 at concrete inputs: a 200 response with body `7` still
yields the fixed status dicts. -/
theorem delete_endpoints_return_fixed_success_object_witness :
    (Confluence.delete_page "https://conf.example" ("user", "tok") "42"
        (fun _ => Except.ok ⟨200, Json.num 7⟩)).result =
      Except.ok (Json.obj [("status", Json.str "Page deleted successfully")]) ∧
    (Discord.delete_message "tok" "chan" "msg"
        (fun _ => Except.ok ⟨200, Json.num 7⟩)).result =
      Except.ok (Json.obj [("status", Json.str "Message deleted successfully")]) :=
  delete_endpoints_return_fixed_success_object "https://conf.example" ("user", "tok") "42"
    "tok" "chan" "msg" (fun _ => Except.ok ⟨200, Json.num 7⟩) ⟨200, Json.num 7⟩ ⟨200, Json.num 7⟩
    rfl rfl rfl rfl

/-- C3 counterexample: Confluence `delete_page`, on a 200 response whose
parsed body is `7`, returns the fixed status dict — not the parsed body — so
not every wrapper returns the 2xx response body unchanged. -/
theorem delete_page_not_body_passthrough_cex :
    (Confluence.delete_page "https://conf.example" ("user", "tok") "42"
        (fun _ => Except.ok ⟨200, Json.num 7⟩)).result =
      Except.ok (Json.obj [("status", Json.str "Page deleted successfully")]) ∧
    Json.obj [("status", Json.str "Page deleted successfully")] ≠ Json.num 7 ∧
    isErrorStatus 200 = false :=
  ⟨rfl, fun h => Json.noConfusion h, rfl⟩

/-- C3 amended: wrappers whose success branch is `return response.json()`
(here Confluence `read_page`) return the parsed 2xx body unchanged; but the
delete-style endpoints (Confluence `delete_page`) replace it with a fixed
status object, and star-style endpoints (GitHub `star_repository`) replace
it with a fixed success string. -/
theorem two_xx_body_passthrough_amended
    (base_url : String) (auth : String × String) (page_id : String)
    (auth_token : String) (owner : String) (repo : String) (http : Http)
    (resp₁ resp₂ resp₃ : HttpResponse)
    (h₁ : http (Confluence.read_page_request base_url auth page_id) = Except.ok resp₁)
    (hs₁ : isErrorStatus resp₁.status = false)
    (h₂ : http (Confluence.delete_page_request base_url auth page_id) = Except.ok resp₂)
    (hs₂ : isErrorStatus resp₂.status = false)
    (h₃ : http (GitHub.star_repository_request auth_token owner repo) = Except.ok resp₃)
    (hs₃ : isErrorStatus resp₃.status = false) :
    (Confluence.read_page base_url auth page_id http).result = Except.ok resp₁.body ∧
    (Confluence.delete_page base_url auth page_id http).result =
      Except.ok (Json.obj [("status", Json.str "Page deleted successfully")]) ∧
    (GitHub.star_repository auth_token owner repo http).result =
      Except.ok (Json.str "Successfully starred the repository.") := by
  refine ⟨?_, ?_, ?_⟩
  · exact tryRequest_success http _ _ resp₁ h₁ hs₁
  · exact tryRequest_success http _ _ resp₂ h₂ hs₂
  · exact tryRequest_success http _ _ resp₃ h₃ hs₃

/-- Witness for the amended C3 at a concrete 200 response with body
`{"id": 9}`. -/
theorem two_xx_body_passthrough_amended_witness :
    (Confluence.read_page "https://conf.example" ("user", "tok") "42"
        (fun _ => Except.ok ⟨200, Json.obj [("id", Json.num 9)]⟩)).result =
      Except.ok (Json.obj [("id", Json.num 9)]) ∧
    (Confluence.delete_page "https://conf.example" ("user", "tok") "42"
        (fun _ => Except.ok ⟨200, Json.obj [("id", Json.num 9)]⟩)).result =
      Except.ok (Json.obj [("status", Json.str "Page deleted successfully")]) ∧
    (GitHub.star_repository "tok" "octo" "repo"
        (fun _ => Except.ok ⟨200, Json.obj [("id", Json.num 9)]⟩)).result =
      Except.ok (Json.str "Successfully starred the repository.") :=
  two_xx_body_passthrough_amended "https://conf.example" ("user", "tok") "42"
    "tok" "octo" "repo" (fun _ => Except.ok ⟨200, Json.obj [("id", Json.num 9)]⟩)
    ⟨200, Json.obj [("id", Json.num 9)]⟩ ⟨200, Json.obj [("id", Json.num 9)]⟩
    ⟨200, Json.obj [("id", Json.num 9)]⟩ rfl rfl rfl rfl rfl rfl

/-- C2 counterexample: GitHub `star_repository`, on a plain 200 success,
returns a string ("Successfully starred the repository."), so a string
return value does not imply a failed call. -/
theorem star_repository_success_string_cex :
    (GitHub.star_repository "tok" "octo" "repo"
        (fun _ => Except.ok ⟨200, Json.obj []⟩)).result =
      Except.ok (Json.str "Successfully starred the repository.") ∧
    isErrorStatus 200 = false :=
  ⟨rfl, rfl⟩

/-- C2 amended: for wrappers whose success branch returns `response.json()`
(here Discord `send_message` and Jira `read_issue`), every failure yields a
string; but wrappers such as GitHub `star_repository` and `follow_user`
return fixed strings on success too, so string-ness does not characterize
failure across the repository. -/
theorem string_return_vs_failure_amended
    (token : String) (channel_id : String) (content : String)
    (server_url : String) (username : String) (password : String) (issue_key : String)
    (auth_token : String) (owner : String) (repo : String) (username₂ : String)
    (http : Http) :
    (failureAt http (Discord.send_message_request token channel_id content) →
      ∃ s, (Discord.send_message token channel_id content http).result =
        Except.ok (Json.str s)) ∧
    (failureAt http (Jira.read_issue_request server_url username password issue_key) →
      ∃ s, (Jira.read_issue server_url [("username", username), ("password", password)]
        issue_key http).result = Except.ok (Json.str s)) ∧
    (∀ resp, http (GitHub.star_repository_request auth_token owner repo) = Except.ok resp →
      isErrorStatus resp.status = false →
      (GitHub.star_repository auth_token owner repo http).result =
        Except.ok (Json.str "Successfully starred the repository.")) ∧
    (∀ resp, http (GitHub.follow_user_request auth_token username₂) = Except.ok resp →
      isErrorStatus resp.status = false →
      (GitHub.follow_user auth_token username₂ http).result =
        Except.ok (Json.str "User followed successfully.")) := by
  refine ⟨?_, ?_, ?_, ?_⟩
  · exact fun h => tryRequest_failure_string http _ _ h
  · intro h
    exact tryRequest_failure_string http _ _ h
  · exact fun resp hr hs => tryRequest_success http _ _ resp hr hs
  · exact fun resp hr hs => tryRequest_success http _ _ resp hr hs

/-- Witness for the amended C2: a raising transport layer makes
`send_message` return a string, and a 200 layer makes `star_repository`
return its fixed success string. -/
theorem string_return_vs_failure_amended_witness :
    (∃ s, (Discord.send_message "tok" "chan" "hello"
        (fun _ => Except.error "boom")).result = Except.ok (Json.str s)) ∧
    (GitHub.star_repository "tok" "octo" "repo"
        (fun _ => Except.ok ⟨200, Json.obj []⟩)).result =
      Except.ok (Json.str "Successfully starred the repository.") :=
  ⟨(string_return_vs_failure_amended "tok" "chan" "hello" "https://jira.example" "u" "p"
      "PROJ-1" "tok" "octo" "repo" "user2" (fun _ => Except.error "boom")).1
      (Or.inl ⟨"boom", rfl⟩),
   (string_return_vs_failure_amended "tok" "chan" "hello" "https://jira.example" "u" "p"
      "PROJ-1" "tok" "octo" "repo" "user2" (fun _ => Except.ok ⟨200, Json.obj []⟩)).2.2.1
      ⟨200, Json.obj []⟩ rfl rfl⟩

/-- C1 counterexample: GitHub `create_repository` has no `try`/`except` and
no `raise_for_status`: a transport exception propagates to the caller as a
raised `requests.RequestException`, and a 404 response yields the parsed
JSON error body, not a string. -/
theorem create_repository_failure_handling_cex :
    (GitHub.create_repository "tok" "my-repo" (some "") false none
        (fun _ => Except.error "connection refused")).result =
      Except.error (PyExc.requestException "connection refused") ∧
    (GitHub.create_repository "tok" "my-repo" (some "") false none
        (fun _ => Except.ok ⟨404, Json.obj [("message", Json.str "Not Found")]⟩)).result =
      Except.ok (Json.obj [("message", Json.str "Not Found")]) :=
  ⟨rfl, rfl⟩

/-- C1 amended: every embedded wrapper with the `try`/`except` shape converts
a transport or HTTP-status failure into a returned string; but GitHub
`create_repository`, `delete_repository` and `update_repository` lack that
shape — they return the parsed body whatever the status and propagate
transport exceptions to the caller. -/
theorem failure_to_string_policy_amended
    (base_url : String) (auth : String × String) (space_key : String) (title : String)
    (content : String) (page_id : String) (auth_token : String) (owner : String)
    (repo : String) (token : String) (channel_id : String) (ts : String) (text : String)
    (name : Option String) (description : Option String) (priv : Option Bool)
    (e : String) (resp : HttpResponse) (http : Http)
    (hfail₁ : failureAt http (Confluence.create_page_request base_url auth space_key title content))
    (hfail₂ : failureAt http (Confluence.read_page_request base_url auth page_id))
    (hfail₃ : failureAt http (Confluence.delete_page_request base_url auth page_id))
    (hfail₄ : failureAt http (GitHub.star_repository_request auth_token owner repo))
    (hfail₅ : failureAt http (Slack.update_message_request token channel_id ts text))
    (herr : http (GitHub.update_repository_request auth_token owner repo name description priv)
      = Except.error e)
    (hresp : http (GitHub.delete_repository_request auth_token owner repo) = Except.ok resp) :
    (∃ s, (Confluence.create_page base_url auth space_key title content http).result =
      Except.ok (Json.str s)) ∧
    (∃ s, (Confluence.read_page base_url auth page_id http).result =
      Except.ok (Json.str s)) ∧
    (∃ s, (Confluence.delete_page base_url auth page_id http).result =
      Except.ok (Json.str s)) ∧
    (∃ s, (GitHub.star_repository auth_token owner repo http).result =
      Except.ok (Json.str s)) ∧
    (∃ s, (Slack.update_message token channel_id ts text http).result =
      Except.ok (Json.str s)) ∧
    (GitHub.update_repository auth_token owner repo name description priv http).result =
      Except.error (PyExc.requestException e) ∧
    (GitHub.delete_repository auth_token owner repo http).result = Except.ok resp.body := by
  refine ⟨tryRequest_failure_string http _ _ hfail₁, tryRequest_failure_string http _ _ hfail₂,
    tryRequest_failure_string http _ _ hfail₃, tryRequest_failure_string http _ _ hfail₄,
    tryRequest_failure_string http _ _ hfail₅, ?_, ?_⟩
  · simp [GitHub.update_repository, rawRequestJson, herr]
  · simp [GitHub.delete_repository, rawRequestJson, hresp]

/-- Witness for the amended C1 under `mixedHttp`: the `try`/`except` wrappers
return strings on both failure modes, `update_repository` raises on the
transport error, and `delete_repository` returns the 404 JSON body. -/
theorem failure_to_string_policy_amended_witness :
    (∃ s, (Confluence.create_page "https://conf.example" ("u", "p") "SP" "T" "C"
        mixedHttp).result = Except.ok (Json.str s)) ∧
    (∃ s, (Confluence.read_page "https://conf.example" ("u", "p") "42"
        mixedHttp).result = Except.ok (Json.str s)) ∧
    (∃ s, (Confluence.delete_page "https://conf.example" ("u", "p") "42"
        mixedHttp).result = Except.ok (Json.str s)) ∧
    (∃ s, (GitHub.star_repository "tok" "octo" "repo" mixedHttp).result =
      Except.ok (Json.str s)) ∧
    (∃ s, (Slack.update_message "tok" "chan" "1.2" "hi" mixedHttp).result =
      Except.ok (Json.str s)) ∧
    (GitHub.update_repository "tok" "octo" "repo" none none none mixedHttp).result =
      Except.error (PyExc.requestException "boom") ∧
    (GitHub.delete_repository "tok" "octo" "repo" mixedHttp).result =
      Except.ok (Json.obj [("message", Json.str "Not Found")]) :=
  failure_to_string_policy_amended "https://conf.example" ("u", "p") "SP" "T" "C"
    "42" "tok" "octo" "repo" "tok" "chan" "1.2" "hi" none none none
    "boom" ⟨404, Json.obj [("message", Json.str "Not Found")]⟩ mixedHttp
    (Or.inl ⟨"boom", rfl⟩) (Or.inl ⟨"boom", rfl⟩)
    (Or.inr ⟨⟨404, Json.obj [("message", Json.str "Not Found")]⟩, rfl, rfl⟩)
    (Or.inl ⟨"boom", rfl⟩) (Or.inl ⟨"boom", rfl⟩) rfl rfl

/-- C6: every embedded wrapper issues at most one HTTP request per
invocation — including the GitLab dispatcher with three call sites, the
Slack file upload whose `open` may fail first, and the Jira wrapper whose
auth lookups may fail first. No retry or follow-up request exists. -/
theorem at_most_one_request_per_invocation
    (token : String) (channel_id : String) (ts : String) (text : String)
    (auth_token : String) (owner : String) (repo : String) (title : String)
    (body : Option String) (labels : Option (List String))
    (assignees : Option (List String)) (milestone : Option Int)
    (server_url : String) (gl_token : String) (project_id : Int)
    (merge_request_id : Int) (note_id : Int) (action : String) (note_body : String)
    (channels : String) (file_path : String) (fs : String → Option String)
    (jira_url : String) (auth : List (String × String)) (project_key : String)
    (issue_type : String) (summary : String) (description : String)
    (name : Option String) (priv : Option Bool) (http : Http) :
    (Slack.update_message token channel_id ts text http).trace.length ≤ 1 ∧
    (GitHub.create_issue auth_token owner repo title body labels assignees milestone
      http).trace.length ≤ 1 ∧
    (GitHub.create_repository auth_token title body (priv.getD false)
      (some owner) http).trace.length ≤ 1 ∧
    (GitHub.update_repository auth_token owner repo name body priv http).trace.length ≤ 1 ∧
    (GitLab.manage_merge_request_notes server_url gl_token project_id merge_request_id
      note_id action note_body http).trace.length ≤ 1 ∧
    (Slack.upload_file token channels file_path fs http).trace.length ≤ 1 ∧
    (Jira.create_issue jira_url auth project_key issue_type summary description
      http).trace.length ≤ 1 := by
  refine ⟨by simp [Slack.update_message, tryRequest],
    by simp [GitHub.create_issue, tryRequest],
    by simp [GitHub.create_repository, rawRequestJson],
    by simp [GitHub.update_repository, rawRequestJson], ?_, ?_, ?_⟩
  · unfold GitLab.manage_merge_request_notes
    split_ifs <;> simp [tryRequest]
  · unfold Slack.upload_file
    cases fs file_path <;> simp [tryRequest]
  · unfold Jira.create_issue
    cases dictGet auth "username" with
    | none => simp
    | some u => cases dictGet auth "password" <;> simp [tryRequest]

/-- C7: each wrapper is deterministic in its arguments and the transport
layer's behaviour — two invocations with identical arguments under
extensionally equal transport layers return identical traces and results;
the embedding reads no state beyond its arguments. -/
theorem wrappers_deterministic_in_http
    (token : String) (channel_id : String) (content : String)
    (server_url : String) (auth : List (String × String)) (issue_key : String)
    (http₁ http₂ : Http) (h : ∀ req, http₁ req = http₂ req) :
    Discord.send_message token channel_id content http₁ =
      Discord.send_message token channel_id content http₂ ∧
    Jira.read_issue server_url auth issue_key http₁ =
      Jira.read_issue server_url auth issue_key http₂ := by
  have heq : http₁ = http₂ := funext h
  rw [heq]
  exact ⟨rfl, rfl⟩

/-- Witness for C7 at two syntactically different but pointwise-equal
transport layers. -/
theorem wrappers_deterministic_in_http_witness :
    Discord.send_message "tok" "chan" "hi" (fun _ => Except.ok ⟨200, Json.obj []⟩) =
      Discord.send_message "tok" "chan" "hi" (fun _ => Except.ok ⟨100 + 100, Json.obj []⟩) ∧
    Jira.read_issue "https://jira.example" [("username", "u"), ("password", "p")] "PROJ-1"
        (fun _ => Except.ok ⟨200, Json.obj []⟩) =
      Jira.read_issue "https://jira.example" [("username", "u"), ("password", "p")] "PROJ-1"
        (fun _ => Except.ok ⟨100 + 100, Json.obj []⟩) :=
  wrappers_deterministic_in_http "tok" "chan" "hi" "https://jira.example"
    [("username", "u"), ("password", "p")] "PROJ-1"
    (fun _ => Except.ok ⟨200, Json.obj []⟩) (fun _ => Except.ok ⟨100 + 100, Json.obj []⟩)
    (fun _ => rfl)

/-- C9: the PATCH body of GitHub `update_repository` contains exactly the
keys among name/description/private whose argument is not `None`: the
payload is the concatenation of one optional entry per field, each present
iff its argument is `some`. -/
theorem update_repository_omits_none_fields
    (auth_token : String) (owner : String) (repo : String)
    (name : Option String) (description : Option String) (priv : Option Bool)
    (http : Http) :
    (GitHub.update_repository auth_token owner repo name description priv http).trace =
      [GitHub.update_repository_request auth_token owner repo name description priv] ∧
    (GitHub.update_repository_request auth_token owner repo name description priv).body =
      some (Json.obj (
        (match name with | some s => [("name", Json.str s)] | none => []) ++
        (match description with | some s => [("description", Json.str s)] | none => []) ++
        (match priv with | some b => [("private", Json.bool b)] | none => []))) := by
  refine ⟨rfl, ?_⟩
  cases name <;> cases description <;> cases priv <;> rfl

/-- C10: only `requests.RequestException` is caught — the `try`/`except`
shape always returns normally, while Slack `upload_file` raises an uncaught
`OSError` before any request when the file is missing, and Jira
`create_issue` raises an uncaught `KeyError` before any request when the
auth dict lacks "username" (or lacks "password"). -/
theorem only_request_exception_converted
    (token : String) (channels : String) (file_path : String)
    (fs : String → Option String) (server_url : String)
    (auth : List (String × String)) (auth₂ : List (String × String)) (u : String)
    (project_key : String) (issue_type : String) (summary : String)
    (description : String) (http : Http) (req : Request) (onOk : HttpResponse → Json)
    (hfs : fs file_path = none)
    (hu : dictGet auth "username" = none)
    (hu₂ : dictGet auth₂ "username" = some u)
    (hp₂ : dictGet auth₂ "password" = none) :
    (∃ v, (tryRequest http req onOk).result = Except.ok v) ∧
    Slack.upload_file token channels file_path fs http =
      ⟨[], Except.error (PyExc.osError file_path)⟩ ∧
    Jira.create_issue server_url auth project_key issue_type summary description http =
      ⟨[], Except.error (PyExc.keyError "username")⟩ ∧
    Jira.create_issue server_url auth₂ project_key issue_type summary description http =
      ⟨[], Except.error (PyExc.keyError "password")⟩ := by
  refine ⟨tryRequest_never_raises http req onOk, ?_, ?_, ?_⟩
  · unfold Slack.upload_file
    rw [hfs]
  · unfold Jira.create_issue
    rw [hu]
  · unfold Jira.create_issue
    rw [hu₂, hp₂]

/-- Witness for C10: the empty filesystem and the dicts `{}` and
`{"username": "u"}` produce the uncaught `OSError` / `KeyError` outcomes,
while the `try`/`except` shape returns normally. -/
theorem only_request_exception_converted_witness :
    (∃ v, (tryRequest (fun _ => Except.error "boom")
        ⟨Method.GET, "https://x.example", [], none, none, [], []⟩
        (fun resp => resp.body)).result = Except.ok v) ∧
    Slack.upload_file "tok" "C1" "/missing.txt" (fun _ => none)
        (fun _ => Except.error "boom") =
      ⟨[], Except.error (PyExc.osError "/missing.txt")⟩ ∧
    Jira.create_issue "https://jira.example" [] "PROJ" "Bug" "s" "d"
        (fun _ => Except.error "boom") =
      ⟨[], Except.error (PyExc.keyError "username")⟩ ∧
    Jira.create_issue "https://jira.example" [("username", "u")] "PROJ" "Bug" "s" "d"
        (fun _ => Except.error "boom") =
      ⟨[], Except.error (PyExc.keyError "password")⟩ :=
  only_request_exception_converted "tok" "C1" "/missing.txt" (fun _ => none)
    "https://jira.example" [] [("username", "u")] "u" "PROJ" "Bug" "s" "d"
    (fun _ => Except.error "boom")
    ⟨Method.GET, "https://x.example", [], none, none, [], []⟩ (fun resp => resp.body)
    rfl rfl rfl rfl
